import Mathlib

/-!
Shallow embedding of the reservation lifecycle and availability engine of
the api-mihotel backend (rooms, guests, reservations, payments), together
with theorems checking the specification of that engine against the code.

Conventions of the embedding:
* monetary amounts are rationals (JS numbers carrying currency values);
* timestamps are integers counting milliseconds, and day-granularity
  normalization (JS setHours applied with four zero arguments) is modelled
  as flooring to a multiple of the milliseconds in one day;
* persistence is modelled by passing explicit lists of documents;
* fallible operations return Except String, the error text being the
  message thrown or responded by the source.
-/

namespace MiHotel

/-- Reservation lifecycle statuses (config/constants.js RESERVATION_STATUS). -/
inductive ReservationStatus where
  | pending
  | confirmed
  | checked_in
  | checked_out
  | cancelled
deriving DecidableEq, Repr

/-- Payment statuses (config/constants.js PAYMENT_STATUS).  The constructor
`partly` stands for the source string 'partial'. -/
inductive PaymentStatus where
  | pending
  | partly
  | paid
deriving DecidableEq, Repr

/-- Room lifecycle statuses (config/constants.js ROOM_STATUS). -/
inductive RoomStatus where
  | available
  | occupied
  | maintenance
  | cleaning
deriving DecidableEq, Repr

/-- Adult / child capacity of a room (room.model.js `capacity`). -/
structure Capacity where
  adults : Nat
  children : Nat
deriving DecidableEq, Repr

/-- Rate schedule of a room (room.model.js `pricing`). -/
structure RoomPricing where
  basePrice : ℚ
  extraAdultPrice : ℚ := 0
  extraChildPrice : ℚ := 0
deriving DecidableEq, Repr

/-- A room document (room.model.js), restricted to the fields the
reservation engine reads. -/
structure Room where
  id : Nat
  tenantId : Nat
  propertyId : Nat
  nameOrNumber : String := ""
  capacity : Capacity
  pricing : RoomPricing
  status : RoomStatus := RoomStatus.available
  isActive : Bool := true
deriving DecidableEq, Repr

/-- A guest document (guest.model.js), restricted to the statistics fields. -/
structure Guest where
  id : Nat
  tenantId : Nat
  totalStays : Nat := 0
  totalSpent : ℚ := 0
  vipStatus : Bool := false
deriving DecidableEq, Repr

/-- The `dates` subdocument of a reservation. -/
structure DateRange where
  checkInDate : Int
  checkOutDate : Int
  actualCheckInDate : Option Int := none
  actualCheckOutDate : Option Int := none
deriving DecidableEq, Repr

/-- The `pricing.fees` subdocument of a reservation. -/
structure Fees where
  cleaning : ℚ := 0
  service : ℚ := 0
  extra : ℚ := 0
deriving DecidableEq, Repr

/-- The `pricing` subdocument of a reservation. -/
structure ResPricing where
  roomRate : ℚ := 0
  nights : Int := 1
  subtotal : ℚ := 0
  taxes : ℚ := 0
  fees : Fees := {}
  totalPrice : ℚ := 0
deriving DecidableEq, Repr

/-- The `paymentSummary` subdocument of a reservation. -/
structure PaymentSummary where
  totalPaid : ℚ := 0
  remainingBalance : ℚ := 0
deriving DecidableEq, Repr

/-- The `cancellation` subdocument of a reservation. -/
structure CancellationRecord where
  cancelledAt : Int
  cancelledBy : Nat
  reason : String
  refundAmount : ℚ
deriving DecidableEq, Repr

/-- The `timestamps` subdocument of a reservation. -/
structure ResTimestamps where
  bookedAt : Option Int := none
  confirmedAt : Option Int := none
  checkedInAt : Option Int := none
  checkedOutAt : Option Int := none
deriving DecidableEq, Repr

/-- A reservation document (reservation.model.js), restricted to the fields
the lifecycle engine reads and writes. -/
structure Reservation where
  id : Nat
  tenantId : Nat
  propertyId : Nat
  roomId : Nat
  guestId : Nat
  confirmationNumber : String := ""
  dates : DateRange
  adults : Nat := 1
  children : Nat := 0
  status : ReservationStatus := ReservationStatus.pending
  pricing : ResPricing := {}
  paymentStatus : PaymentStatus := PaymentStatus.pending
  paymentSummary : PaymentSummary := {}
  notes : Option String := none
  cancellation : Option CancellationRecord := none
  timestamps : ResTimestamps := {}
  isActive : Bool := true
deriving DecidableEq, Repr

/-- The `refund` subdocument of a payment (payment.model.js). -/
structure RefundRecord where
  isRefunded : Bool := false
  refundedAmount : ℚ := 0
  refundedAt : Option Int := none
  refundReason : Option String := none
  refundedBy : Option Nat := none
deriving DecidableEq, Repr

/-- A payment document (payment.model.js), restricted to the fields the
ledger reconciler reads and writes. -/
structure Payment where
  id : Nat
  tenantId : Nat
  reservationId : Nat
  amount : ℚ
  status : PaymentStatus
  refund : RefundRecord := {}
  isActive : Bool := true
deriving DecidableEq, Repr

/-! ## Room availability checker (reservation.service.js) -/

/-- Milliseconds in one day. -/
def msPerDay : Int := 86400000

/-- `normalizeDate` in reservation.service.js: reset the time-of-day part
of a timestamp to midnight, i.e. floor it to a whole number of days. -/
def normalizeDate (t : Int) : Int := msPerDay * (t.fdiv msPerDay)

/-- The persistence query built by `checkRoomAvailability`: reservations of
the given room and tenant, active, with status pending, confirmed or
checked_in, and distinct from the excluded reservation when one is given. -/
def matchesAvailabilityQuery (roomId tenantId : Nat)
    (excludeReservationId : Option Nat) (r : Reservation) : Bool :=
  r.roomId == roomId && r.tenantId == tenantId && r.isActive &&
    (r.status == ReservationStatus.pending ||
     r.status == ReservationStatus.confirmed ||
     r.status == ReservationStatus.checked_in) &&
    (match excludeReservationId with
     | none => true
     | some e => r.id != e)

/-- The overlap test of `checkRoomAvailability`: the normalized new range
and the normalized existing range intersect under half-open semantics. -/
def hasOverlap (newCheckIn newCheckOut : Int) (r : Reservation) : Bool :=
  let existingCheckIn := normalizeDate r.dates.checkInDate
  let existingCheckOut := normalizeDate r.dates.checkOutDate
  decide (newCheckIn < existingCheckOut) && decide (newCheckOut > existingCheckIn)

/-- Result shape of `checkRoomAvailability`. -/
structure AvailabilityResult where
  available : Bool
  conflictingReservation : Option Reservation
deriving DecidableEq, Repr

/-- `checkRoomAvailability` of reservation.service.js over an explicit list
of stored reservations: normalize the requested dates, load the matching
reservations, and report the first one whose dates overlap. -/
def checkRoomAvailability (reservations : List Reservation)
    (roomId tenantId : Nat) (checkInDate checkOutDate : Int)
    (excludeReservationId : Option Nat) : AvailabilityResult :=
  let newCheckIn := normalizeDate checkInDate
  let newCheckOut := normalizeDate checkOutDate
  let existingReservations :=
    reservations.filter (matchesAvailabilityQuery roomId tenantId excludeReservationId)
  match existingReservations.find? (hasOverlap newCheckIn newCheckOut) with
  | some r => { available := false, conflictingReservation := some r }
  | none => { available := true, conflictingReservation := none }

/-! ## Pricing calculator (room.model.js) -/

/-- Integer ceiling division with a positive divisor, used for the `nights`
virtual (Math.ceil applied to the millisecond difference over one day). -/
def ceilDivPos (a b : Int) : Int := (a + b - 1).fdiv b

/-- The `nights` virtual of reservation.model.js: ceiling of the stay
length in calendar days. -/
def Reservation.nights (r : Reservation) : Int :=
  ceilDivPos (r.dates.checkOutDate - r.dates.checkInDate) msPerDay

/-- `calculatePrice` of room.model.js: base price times nights, plus
extra-adult and extra-child surcharges when the booked counts exceed the
room capacity. -/
def Room.calculatePrice (room : Room) (nights : Int) (adults children : Nat) : ℚ :=
  let base : ℚ := room.pricing.basePrice * (nights : ℚ)
  let withAdults : ℚ :=
    if (adults : Int) > (room.capacity.adults : Int) then
      base + (((adults : Int) - (room.capacity.adults : Int) : Int) : ℚ) *
        room.pricing.extraAdultPrice * (nights : ℚ)
    else base
  if (children : Int) > (room.capacity.children : Int) then
    withAdults + (((children : Int) - (room.capacity.children : Int) : Int) : ℚ) *
      room.pricing.extraChildPrice * (nights : ℚ)
  else withAdults

/-! ## Reservation state machine (reservation.model.js) -/

/-- `updatePaymentSummary` of reservation.model.js: recompute the remaining
balance and derive the payment status from the amounts. -/
def Reservation.updatePaymentSummary (r : Reservation) : Reservation :=
  let remaining := r.pricing.totalPrice - r.paymentSummary.totalPaid
  let ps :=
    if r.paymentSummary.totalPaid ≤ 0 then PaymentStatus.pending
    else if remaining ≤ 0 then PaymentStatus.paid
    else PaymentStatus.partly
  { r with
      paymentSummary := { r.paymentSummary with remainingBalance := remaining },
      paymentStatus := ps }

/-- `calculatePricing` of reservation.model.js: snapshot the room rate and
nights, compute the room cost through `Room.calculatePrice`, set taxes to
zero (room prices already include IVA), and total the cost with the fees. -/
def Reservation.calculatePricing (r : Reservation) (room : Room) : Reservation :=
  let nights := r.nights
  let roomCost := room.calculatePrice nights r.adults r.children
  let totalPrice := roomCost + r.pricing.fees.cleaning + r.pricing.fees.service +
    r.pricing.fees.extra
  { r with
      pricing := { r.pricing with
        nights := nights, roomRate := room.pricing.basePrice, taxes := 0,
        subtotal := roomCost, totalPrice := totalPrice },
      paymentSummary := { r.paymentSummary with
        remainingBalance := totalPrice - r.paymentSummary.totalPaid } }

/-- Saving a reservation document whose dates and guests fields were not
modified: the pre-save hooks recompute the payment summary and reject a
check-out date that is not strictly after the check-in date. -/
def Reservation.save (r : Reservation) : Except String Reservation :=
  let r1 := r.updatePaymentSummary
  if r1.dates.checkInDate ≥ r1.dates.checkOutDate then
    Except.error "La fecha de check-out debe ser posterior a la fecha de check-in"
  else Except.ok r1

/-- The `checkIn` instance method of reservation.model.js: legal only from
confirmed; set the status, the actual check-in date, and the checked-in
timestamp, then save. -/
def Reservation.checkIn (r : Reservation) (now : Int) : Except String Reservation :=
  if r.status ≠ ReservationStatus.confirmed then
    Except.error "Cannot check in: reservation is not confirmed"
  else
    Reservation.save { r with
      status := ReservationStatus.checked_in,
      dates := { r.dates with actualCheckInDate := some now },
      timestamps := { r.timestamps with checkedInAt := some now } }

/-- The `checkOut` instance method of reservation.model.js: legal only from
checked_in; set the status, the actual check-out date, and the checked-out
timestamp, then save. -/
def Reservation.checkOut (r : Reservation) (now : Int) : Except String Reservation :=
  if r.status ≠ ReservationStatus.checked_in then
    Except.error "Cannot check out: guest is not checked in"
  else
    Reservation.save { r with
      status := ReservationStatus.checked_out,
      dates := { r.dates with actualCheckOutDate := some now },
      timestamps := { r.timestamps with checkedOutAt := some now } }

/-- The `cancel` instance method of reservation.model.js: illegal from
checked_out or cancelled; set the status to cancelled, record the
cancellation metadata, then save. -/
def Reservation.cancel (r : Reservation) (userId : Nat) (reason : String)
    (refundAmount : ℚ) (now : Int) : Except String Reservation :=
  if r.status = ReservationStatus.checked_out ∨ r.status = ReservationStatus.cancelled then
    Except.error "Cannot cancel: reservation is already completed or cancelled"
  else
    Reservation.save { r with
      status := ReservationStatus.cancelled,
      cancellation := some {
        cancelledAt := now, cancelledBy := userId,
        reason := reason, refundAmount := refundAmount } }

/-- `updateStayStats` of guest.model.js: one more stay, the amount added to
the total spend, and promotion to VIP past ten stays or a ten thousand
total spend. -/
def Guest.updateStayStats (g : Guest) (amount : ℚ) : Guest :=
  let g1 := { g with totalStays := g.totalStays + 1, totalSpent := g.totalSpent + amount }
  if g1.totalStays ≥ 10 ∨ g1.totalSpent ≥ 10000 then { g1 with vipStatus := true }
  else g1

/-! ## Reservation controller operations (reservation.controller.js) -/

/-- `confirmReservation`: reject unless the reservation is pending, then
set the status to confirmed and save.  No confirmation timestamp is
written anywhere on this path. -/
def confirmReservation (r : Reservation) : Except String Reservation :=
  if r.status ≠ ReservationStatus.pending then
    Except.error "Only pending reservations can be confirmed"
  else
    Reservation.save { r with status := ReservationStatus.confirmed }

/-- `checkInGuest`: reject unless the reservation is confirmed, check the
guest in through the model method, set the room status to occupied, and
update the guest statistics with the reservation total price. -/
def checkInGuest (r : Reservation) (room : Room) (g : Guest) (now : Int) :
    Except String (Reservation × Room × Guest) :=
  if r.status ≠ ReservationStatus.confirmed then
    Except.error "Only confirmed reservations can be checked in"
  else
    match r.checkIn now with
    | Except.error e => Except.error e
    | Except.ok r1 =>
        Except.ok (r1, { room with status := RoomStatus.occupied },
          g.updateStayStats r.pricing.totalPrice)

/-- `cancelReservation`: cancel through the model method, then consult the
status of the very document the cancel call just mutated to decide whether
to free the room.  The embedding keeps this order faithfully. -/
def cancelReservation (r : Reservation) (room : Room) (userId : Nat)
    (reason : String) (refundAmount : ℚ) (now : Int) :
    Except String (Reservation × Room) :=
  match r.cancel userId reason refundAmount now with
  | Except.error e => Except.error e
  | Except.ok r1 =>
      let room1 :=
        if r1.status = ReservationStatus.confirmed ∨
            r1.status = ReservationStatus.checked_in then
          { room with status := RoomStatus.available }
        else room
      Except.ok (r1, room1)

/-! ## Payment ledger reconciler (payment.model.js) -/

/-- The `processRefund` instance method of payment.model.js: reject unless
the payment is currently paid, reject a refund beyond the available
balance; otherwise mark the refund, add the amount to the cumulative
refunded amount, stamp actor, time and reason, and, when the payment is
now fully refunded, set its status back to pending. -/
def Payment.processRefund (p : Payment) (amount : ℚ) (reason : String)
    (refundedBy : Nat) (now : Int) : Except String Payment :=
  if p.status ≠ PaymentStatus.paid then
    Except.error "Cannot refund: payment is not in paid status"
  else if amount > p.amount - p.refund.refundedAmount then
    Except.error "Refund amount cannot exceed available balance"
  else
    let p1 := { p with refund := {
      isRefunded := true,
      refundedAmount := p.refund.refundedAmount + amount,
      refundedAt := some now,
      refundReason := some reason,
      refundedBy := some refundedBy } }
    Except.ok (if p1.refund.refundedAmount ≥ p1.amount then
      { p1 with status := PaymentStatus.pending } else p1)

/-- The net contribution of one payment to a reservation ledger. -/
def Payment.netPaid (p : Payment) : ℚ := p.amount - p.refund.refundedAmount

/-- The payments `updateReservationPaymentStatus` loads: active paid
payments of the reservation. -/
def ledgerPayments (payments : List Payment) (reservationId : Nat) : List Payment :=
  payments.filter (fun p =>
    p.reservationId == reservationId && p.status == PaymentStatus.paid && p.isActive)

/-- The assignment `reservation.paymentSummary.totalPaid = totalPaid` of
`updateReservationPaymentStatus`. -/
def Reservation.setTotalPaid (r : Reservation) (t : ℚ) : Reservation :=
  { r with paymentSummary := { r.paymentSummary with totalPaid := t } }

/-- `updateReservationPaymentStatus` of payment.model.js: sum the net paid
amounts of the active paid payments of the reservation, store the sum as
the total paid, recompute the summary, and save the reservation. -/
def updateReservationPaymentStatus (payments : List Payment)
    (reservationId : Nat) (resv : Reservation) : Except String Reservation :=
  let totalPaid :=
    (ledgerPayments payments reservationId).foldl (fun s p => s + p.amount - p.refund.refundedAmount) 0
  Reservation.save ((resv.setTotalPaid totalPaid).updatePaymentSummary)

/-- Saving a payment and running the post-save hook of payment.model.js:
the reservation ledger is reconciled only when the saved document has
status paid.  `payments` is the stored payment list after the save. -/
def savePaymentHook (doc : Payment) (payments : List Payment)
    (resv : Reservation) : Except String Reservation :=
  if doc.status = PaymentStatus.paid then
    updateReservationPaymentStatus payments doc.reservationId resv
  else Except.ok resv

/-- A refund followed by the save of the refunded payment, as run by the
refund endpoint: process the refund on the payment, persist it among the
other payments of the store, and let the post-save hook reconcile the
reservation when the refunded payment is still paid. -/
def processRefundAndSave (p : Payment) (others : List Payment)
    (resv : Reservation) (amount : ℚ) (reason : String) (refundedBy : Nat)
    (now : Int) : Except String (Payment × Reservation) :=
  match p.processRefund amount reason refundedBy now with
  | Except.error e => Except.error e
  | Except.ok p1 =>
      match savePaymentHook p1 (p1 :: others) resv with
      | Except.error e => Except.error e
      | Except.ok resv1 => Except.ok (p1, resv1)

/-! ## Generic reservation update (reservation.controller.js) -/

/-- The update payload accepted by `updateReservation`; a field left `none`
was not supplied in the request body. -/
structure UpdatePayload where
  roomId : Option Nat := none
  guestId : Option Nat := none
  dates : Option (Int × Int) := none
  adults : Option Nat := none
  children : Option Nat := none
  status : Option ReservationStatus := none
  notes : Option String := none
  tenantId : Option Nat := none
  confirmationNumber : Option String := none
deriving DecidableEq, Repr

/-- The field-copy loop of `updateReservation` (step 7): every supplied
field of the payload is copied onto the reservation, except `tenantId` and
`confirmationNumber`, which are skipped. -/
def applyUpdateFields (r : Reservation) (u : UpdatePayload) : Reservation :=
  let r := match u.roomId with
    | some v => { r with roomId := v }
    | none => r
  let r := match u.guestId with
    | some v => { r with guestId := v }
    | none => r
  let r := match u.dates with
    | some (ci, co) => { r with dates := { r.dates with checkInDate := ci, checkOutDate := co } }
    | none => r
  let r := match u.adults with
    | some v => { r with adults := v }
    | none => r
  let r := match u.children with
    | some v => { r with children := v }
    | none => r
  let r := match u.status with
    | some v => { r with status := v }
    | none => r
  match u.notes with
  | some v => { r with notes := some v }
  | none => r

/-! ## Availability endpoint (reservation.controller.js, room.model.js) -/

/-- BSON order comparisons used by the aggregation pipeline of
`findAvailableInProperty`, where the compared field path may resolve to a
missing value; a missing value sorts below every concrete date. -/
def bsonLe : Option Int → Int → Bool
  | none, _ => true
  | some a, b => a ≤ b

/-- Strict BSON order comparison with a possibly missing left operand. -/
def bsonLt : Option Int → Int → Bool
  | none, _ => true
  | some a, b => a < b

/-- BSON greater-or-equal with a possibly missing left operand. -/
def bsonGe : Option Int → Int → Bool
  | none, _ => false
  | some a, b => a ≥ b

/-- Strict BSON greater-than with a possibly missing left operand. -/
def bsonGt : Option Int → Int → Bool
  | none, _ => false
  | some a, b => a > b

/-- The aggregation of `findAvailableInProperty` addresses the paths
`checkInDate` and `checkOutDate` at the top level of the reservation
document; the stored dates live inside the `dates` subdocument, so the
top-level path resolves to a missing value on every reservation. -/
def topLevelCheckInDate (_r : Reservation) : Option Int := none

/-- Top-level `checkOutDate` path of a reservation document; missing for
the same reason as `topLevelCheckInDate`. -/
def topLevelCheckOutDate (_r : Reservation) : Option Int := none

/-- The date condition of the lookup pipeline in `findAvailableInProperty`:
three overlap clauses over the top-level date paths. -/
def lookupDateConflict (checkInDate checkOutDate : Int) (r : Reservation) : Bool :=
  (bsonLe (topLevelCheckInDate r) checkInDate && bsonGt (topLevelCheckOutDate r) checkInDate) ||
  (bsonLt (topLevelCheckInDate r) checkOutDate && bsonGe (topLevelCheckOutDate r) checkOutDate) ||
  (bsonGe (topLevelCheckInDate r) checkInDate && bsonLe (topLevelCheckOutDate r) checkOutDate)

/-- The lookup stage of `findAvailableInProperty`: reservations of the room
and tenant, active, confirmed or checked in, passing the date condition. -/
def conflictingReservations (reservations : List Reservation)
    (roomId tenantId : Nat) (checkInDate checkOutDate : Int) : List Reservation :=
  reservations.filter (fun r =>
    r.roomId == roomId && r.tenantId == tenantId && r.isActive &&
    (r.status == ReservationStatus.confirmed || r.status == ReservationStatus.checked_in) &&
    lookupDateConflict checkInDate checkOutDate r)

/-- `findAvailableInProperty` of room.model.js: the active available rooms
of the property whose lookup stage found no conflicting reservation. -/
def findAvailableInProperty (rooms : List Room) (reservations : List Reservation)
    (tenantId propertyId : Nat) (checkInDate checkOutDate : Int) : List Room :=
  (rooms.filter (fun rm =>
    rm.tenantId == tenantId && rm.propertyId == propertyId &&
    rm.status == RoomStatus.available && rm.isActive)).filter
    (fun rm =>
      (conflictingReservations reservations rm.id rm.tenantId checkInDate checkOutDate).length == 0)

/-- Reading the `totalCapacity` property on a document returned by the
aggregation: aggregation results are plain documents carrying only stored
fields, the schema virtual is not materialized on them, so the property
read yields the JS undefined value. -/
def aggTotalCapacity (_doc : Room) : Option Nat := none

/-- The JS comparison `x >= n` where `x` may be undefined: a comparison
with undefined evaluates to false. -/
def jsGe : Option Nat → Nat → Bool
  | none, _ => false
  | some a, b => a ≥ b

/-- A room annotated with the computed nights and pricing, as returned by
the `checkAvailability` endpoint. -/
structure AnnotatedRoom where
  room : Room
  nights : Int
  basePrice : ℚ
  totalPrice : ℚ
deriving DecidableEq, Repr

/-- The `checkAvailability` endpoint of reservation.controller.js: load the
rooms through `findAvailableInProperty`, keep those whose `totalCapacity`
property satisfies the requested guest count, and annotate each with the
computed nights and price. -/
def checkAvailability (rooms : List Room) (reservations : List Reservation)
    (tenantId propertyId : Nat) (checkInDate checkOutDate : Int)
    (adults children : Nat) : List AnnotatedRoom :=
  let totalGuests := adults + children
  let availableRooms :=
    findAvailableInProperty rooms reservations tenantId propertyId checkInDate checkOutDate
  let suitableRooms :=
    availableRooms.filter (fun rm => jsGe (aggTotalCapacity rm) totalGuests)
  suitableRooms.map (fun rm =>
    let nights := ceilDivPos (checkOutDate - checkInDate) msPerDay
    { room := rm, nights := nights, basePrice := rm.pricing.basePrice,
      totalPrice := rm.calculatePrice nights adults children })

/-! ## Example documents used in closed statements -/

/-- A reservation occupying the half-open day range from day 10 to day 12
(think Jan 10 to Jan 12). -/
def resJan10to12 : Reservation :=
  { id := 1, tenantId := 1, propertyId := 1, roomId := 1, guestId := 1,
    dates := { checkInDate := 10 * msPerDay, checkOutDate := 12 * msPerDay } }

/-- A room with base price 100, capacity two adults, extra-adult price 20. -/
def exC4Room : Room :=
  { id := 2, tenantId := 1, propertyId := 1,
    capacity := { adults := 2, children := 0 },
    pricing := { basePrice := 100, extraAdultPrice := 20 } }

/-- A three-night reservation for three adults on `exC4Room`. -/
def exC4Res : Reservation :=
  { id := 3, tenantId := 1, propertyId := 1, roomId := 2, guestId := 1,
    dates := { checkInDate := 0, checkOutDate := 3 * msPerDay },
    adults := 3, children := 0 }

/-- A guest with no recorded stays. -/
def exGuest : Guest := { id := 4, tenantId := 1 }

/-- An available room with base price 80 and capacity two adults. -/
def exRoomA : Room :=
  { id := 2, tenantId := 1, propertyId := 1,
    capacity := { adults := 2, children := 0 },
    pricing := { basePrice := 80 },
    status := RoomStatus.available }

/-- A confirmed reservation with total price 160. -/
def exC5Res : Reservation :=
  { id := 20, tenantId := 1, propertyId := 1, roomId := 2, guestId := 4,
    dates := { checkInDate := 10 * msPerDay, checkOutDate := 12 * msPerDay },
    status := ReservationStatus.confirmed,
    pricing := { totalPrice := 160 } }

/-- A confirmed reservation about to be cancelled. -/
def exC2Res : Reservation :=
  { id := 30, tenantId := 1, propertyId := 1, roomId := 2, guestId := 4,
    dates := { checkInDate := 10 * msPerDay, checkOutDate := 12 * msPerDay },
    status := ReservationStatus.confirmed }

/-- The occupied room of `exC2Res`. -/
def exC2Room : Room :=
  { id := 2, tenantId := 1, propertyId := 1,
    capacity := { adults := 2, children := 0 },
    pricing := { basePrice := 80 },
    status := RoomStatus.occupied }

/-- A pending reservation about to be confirmed. -/
def exC8Res : Reservation :=
  { id := 40, tenantId := 1, propertyId := 1, roomId := 2, guestId := 4,
    dates := { checkInDate := 10 * msPerDay, checkOutDate := 12 * msPerDay },
    status := ReservationStatus.pending }

/-- A reservation with total price 500 and no payments recorded yet. -/
def exResv500 : Reservation :=
  { id := 50, tenantId := 1, propertyId := 1, roomId := 2, guestId := 4,
    dates := { checkInDate := 10 * msPerDay, checkOutDate := 12 * msPerDay },
    status := ReservationStatus.confirmed,
    pricing := { totalPrice := 500 } }

/-- A paid payment of 300 against `exResv500`, nothing refunded yet. -/
def exPay300 : Payment :=
  { id := 60, tenantId := 1, reservationId := 50, amount := 300,
    status := PaymentStatus.paid }

/-- The payment `exPay300` after a partial refund of 100. -/
def exPay300r100 : Payment :=
  { exPay300 with refund := {
      isRefunded := true,
      refundedAmount := 100,
      refundedAt := some 88,
      refundReason := some "part",
      refundedBy := some 1 } }

/-! ## General lemmas about the embedding -/

/-- `updatePaymentSummary` only touches the payment summary and the payment
status: the lifecycle status is unchanged. -/
theorem updatePaymentSummary_status (r : Reservation) :
    (r.updatePaymentSummary).status = r.status := rfl

/-- `updatePaymentSummary` leaves the dates unchanged. -/
theorem updatePaymentSummary_dates (r : Reservation) :
    (r.updatePaymentSummary).dates = r.dates := rfl

/-- `updatePaymentSummary` leaves the lifecycle timestamps unchanged. -/
theorem updatePaymentSummary_timestamps (r : Reservation) :
    (r.updatePaymentSummary).timestamps = r.timestamps := rfl

/-- Saving a reservation with a valid date range succeeds and returns the
document with its payment summary recomputed. -/
theorem save_ok_of_valid_dates (r : Reservation)
    (hd : r.dates.checkInDate < r.dates.checkOutDate) :
    r.save = Except.ok r.updatePaymentSummary := by
  simp [Reservation.save, updatePaymentSummary_dates, not_le.mpr hd]

/-- The reduction of `updateReservationPaymentStatus` is the sum of the net
paid amounts. -/
theorem foldl_netPaid (l : List Payment) (s : ℚ) :
    l.foldl (fun s p => s + p.amount - p.refund.refundedAmount) s =
      s + (l.map (fun p => p.amount - p.refund.refundedAmount)).sum := by
  induction l generalizing s with
  | nil => simp
  | cons p t ih => simp [ih]; ring

/-- The availability flag is the negation of the conflict search result. -/
theorem checkRoomAvailability_available_eq (reservations : List Reservation)
    (roomId tenantId : Nat) (ci co : Int) (ex : Option Nat) :
    (checkRoomAvailability reservations roomId tenantId ci co ex).available =
      !((reservations.filter (matchesAvailabilityQuery roomId tenantId ex)).find?
          (hasOverlap (normalizeDate ci) (normalizeDate co))).isSome := by
  simp only [checkRoomAvailability]
  split <;> simp_all

/-- Filtering by a constantly false predicate yields the empty list. -/
theorem filter_const_false {α : Type} (l : List α) :
    l.filter (fun _ => false) = [] := by
  induction l with
  | nil => rfl
  | cons a t ih => simp [ih]

/-! ## Claim theorems -/

/-- C1: the availability check reports the room unavailable exactly when
some stored reservation for that room and tenant is active, has status
pending, confirmed or checked_in, differs from the excluded reservation,
and its midnight-normalized date range overlaps the normalized new range
under the half-open rule; moreover a range starting the day another ends
does not conflict, while a genuine overlap does. -/
theorem checkRoomAvailability_correct :
    (∀ (reservations : List Reservation) (roomId tenantId : Nat)
        (checkInDate checkOutDate : Int) (excludeReservationId : Option Nat),
      (checkRoomAvailability reservations roomId tenantId checkInDate
          checkOutDate excludeReservationId).available = false ↔
        ∃ r ∈ reservations,
          matchesAvailabilityQuery roomId tenantId excludeReservationId r = true ∧
          normalizeDate checkInDate < normalizeDate r.dates.checkOutDate ∧
          normalizeDate checkOutDate > normalizeDate r.dates.checkInDate) ∧
    (checkRoomAvailability [resJan10to12] 1 1 (12 * msPerDay) (14 * msPerDay)
        none).available = true ∧
    (checkRoomAvailability [resJan10to12] 1 1 (9 * msPerDay) (11 * msPerDay)
        none).available = false := by
  refine ⟨?_, by decide, by decide⟩
  intro reservations roomId tenantId checkInDate checkOutDate excludeReservationId
  rw [checkRoomAvailability_available_eq, Bool.not_eq_false', List.find?_isSome]
  constructor
  · rintro ⟨r, hr, hov⟩
    rw [List.mem_filter] at hr
    simp only [hasOverlap, Bool.and_eq_true, decide_eq_true_eq] at hov
    exact ⟨r, hr.1, hr.2, hov.1, hov.2⟩
  · rintro ⟨r, hr, hq, h1, h2⟩
    refine ⟨r, List.mem_filter.mpr ⟨hr, hq⟩, ?_⟩
    simp only [hasOverlap, Bool.and_eq_true, decide_eq_true_eq]
    exact ⟨h1, h2⟩

/-- C4: for a stay of at least one night, the computed room cost is the
base price times the nights plus the extra-adult and extra-child
surcharges when the booked counts exceed the capacity; the taxes field is
set to zero; and the total price is the room cost plus the cleaning,
service and extra fees. -/
theorem calculatePricing_correct (room : Room) (r : Reservation) (n : Int)
    (hn : r.nights = n) (h1 : 1 ≤ n) :
    (r.calculatePricing room).pricing.subtotal =
        room.pricing.basePrice * (n : ℚ) +
          (if (r.adults : Int) > (room.capacity.adults : Int) then
            (((r.adults : Int) - (room.capacity.adults : Int) : Int) : ℚ) *
              room.pricing.extraAdultPrice * (n : ℚ)
          else 0) +
          (if (r.children : Int) > (room.capacity.children : Int) then
            (((r.children : Int) - (room.capacity.children : Int) : Int) : ℚ) *
              room.pricing.extraChildPrice * (n : ℚ)
          else 0) ∧
    (r.calculatePricing room).pricing.taxes = 0 ∧
    (r.calculatePricing room).pricing.totalPrice =
      (r.calculatePricing room).pricing.subtotal + r.pricing.fees.cleaning +
        r.pricing.fees.service + r.pricing.fees.extra := by
  subst hn
  refine ⟨?_, by simp [Reservation.calculatePricing], ?_⟩
  · simp only [Reservation.calculatePricing, Room.calculatePrice]
    split_ifs <;> ring
  · simp only [Reservation.calculatePricing, Room.calculatePrice]

/-- Witness for C4: a room at base price 100 with capacity two adults and
extra-adult price 20, booked three nights for three adults, yields a
subtotal of 360 and zero taxes, with no fees the total is 360 too. -/
theorem calculatePricing_correct_witness :
    exC4Res.nights = 3 ∧ (1 : Int) ≤ 3 ∧
    (exC4Res.calculatePricing exC4Room).pricing.subtotal = 360 ∧
    (exC4Res.calculatePricing exC4Room).pricing.taxes = 0 ∧
    (exC4Res.calculatePricing exC4Room).pricing.totalPrice = 360 := by
  have h := calculatePricing_correct exC4Room exC4Res 3 (by decide) (by decide)
  refine ⟨by decide, by decide, ?_, h.2.1, ?_⟩
  · rw [h.1]; norm_num [exC4Room, exC4Res]
  · rw [h.2.2, h.1]; norm_num [exC4Room, exC4Res]

/-- C5: for a reservation with a well-formed date range, the check-in
operation succeeds exactly when the status is confirmed, failing with the
invalid-transition error otherwise; on success the reservation becomes
checked_in with the actual check-in moment recorded, the room becomes
occupied, and the guest gains one stay and the total price in spend. -/
theorem checkInGuest_correct (r : Reservation) (room : Room) (g : Guest) (now : Int)
    (hd : r.dates.checkInDate < r.dates.checkOutDate) :
    ((∃ out, checkInGuest r room g now = Except.ok out) ↔
      r.status = ReservationStatus.confirmed) ∧
    (r.status ≠ ReservationStatus.confirmed →
      checkInGuest r room g now =
        Except.error "Only confirmed reservations can be checked in") ∧
    (r.status = ReservationStatus.confirmed →
      ∃ r1 room1 g1, checkInGuest r room g now = Except.ok (r1, room1, g1) ∧
        r1.status = ReservationStatus.checked_in ∧
        r1.dates.actualCheckInDate = some now ∧
        r1.timestamps.checkedInAt = some now ∧
        room1.status = RoomStatus.occupied ∧
        g1.totalStays = g.totalStays + 1 ∧
        g1.totalSpent = g.totalSpent + r.pricing.totalPrice) := by
  by_cases hs : r.status = ReservationStatus.confirmed
  · have hng : ¬ (r.dates.checkInDate ≥ r.dates.checkOutDate) := not_le.mpr hd
    have hC : checkInGuest r room g now = Except.ok
        (Reservation.updatePaymentSummary { r with
            status := ReservationStatus.checked_in,
            dates := { r.dates with actualCheckInDate := some now },
            timestamps := { r.timestamps with checkedInAt := some now } },
          { room with status := RoomStatus.occupied },
          g.updateStayStats r.pricing.totalPrice) := by
      simp [checkInGuest, Reservation.checkIn, Reservation.save, hs,
        updatePaymentSummary_dates, hng]
    refine ⟨⟨fun _ => hs, fun _ => ⟨_, hC⟩⟩, fun hns => absurd hs hns, fun _ => ?_⟩
    refine ⟨_, _, _, hC, ?_, ?_, ?_, rfl, ?_, ?_⟩
    · rw [updatePaymentSummary_status]
    · rw [updatePaymentSummary_dates]
    · rw [updatePaymentSummary_timestamps]
    · simp only [Guest.updateStayStats]
      split <;> rfl
    · simp only [Guest.updateStayStats]
      split <;> rfl
  · have hE : checkInGuest r room g now =
        Except.error "Only confirmed reservations can be checked in" := by
      simp [checkInGuest, hs]
    refine ⟨⟨?_, fun h => absurd h hs⟩, fun _ => hE, fun h => absurd h hs⟩
    rintro ⟨out, hout⟩
    rw [hE] at hout
    cases hout

/-- Witness for C5: checking in a concrete confirmed reservation succeeds,
and checking in the same reservation while still pending fails with the
invalid-transition error. -/
theorem checkInGuest_correct_witness :
    exC5Res.dates.checkInDate < exC5Res.dates.checkOutDate ∧
    (∃ out, checkInGuest exC5Res exRoomA exGuest 99 = Except.ok out) ∧
    checkInGuest { exC5Res with status := ReservationStatus.pending }
        exRoomA exGuest 99 =
      Except.error "Only confirmed reservations can be checked in" := by
  have h := checkInGuest_correct exC5Res exRoomA exGuest 99 (by decide)
  have h2 := checkInGuest_correct { exC5Res with status := ReservationStatus.pending }
    exRoomA exGuest 99 (by decide)
  exact ⟨by decide, h.1.mpr rfl, h2.2.1 (by decide)⟩

/-- C2: cancelling a confirmed reservation succeeds and sets the status to
cancelled, and cancelling a checked-out or already cancelled reservation
fails, but the room is returned unchanged — still occupied — because the
controller consults the status of the document the cancel call has already
set to cancelled, so the room is never freed. -/
theorem cancelReservation_room_never_freed :
    ((cancelReservation exC2Res exC2Room 1 "guest request" 0 5).toOption.map
        (fun out => (out.1.status, out.2))) =
      some (ReservationStatus.cancelled, exC2Room) ∧
    exC2Room.status = RoomStatus.occupied ∧
    cancelReservation { exC2Res with status := ReservationStatus.checked_out }
        exC2Room 1 "guest request" 0 5 =
      Except.error "Cannot cancel: reservation is already completed or cancelled" ∧
    cancelReservation { exC2Res with status := ReservationStatus.cancelled }
        exC2Room 1 "guest request" 0 5 =
      Except.error "Cannot cancel: reservation is already completed or cancelled" := by
  exact ⟨by decide, rfl, rfl, rfl⟩

/-- C8: confirming a pending reservation sets the status to confirmed but
leaves the confirmedAt timestamp empty — no confirmation timestamp is
recorded anywhere on this path — and confirming a reservation that is not
pending fails with the invalid-transition error. -/
theorem confirmReservation_no_timestamp :
    ((confirmReservation exC8Res).toOption.map
        (fun r => (r.status, r.timestamps.confirmedAt))) =
      some (ReservationStatus.confirmed, none) ∧
    confirmReservation { exC8Res with status := ReservationStatus.confirmed } =
      Except.error "Only pending reservations can be confirmed" ∧
    confirmReservation { exC8Res with status := ReservationStatus.checked_in } =
      Except.error "Only pending reservations can be confirmed" := by
  exact ⟨by decide, rfl, rfl⟩

/-- C3: for a reservation with a well-formed date range, the ledger
reconciliation stores as totalPaid the sum of amount minus refundedAmount
over the active paid payments of the reservation, sets remainingBalance to
totalPrice minus totalPaid, and derives the payment status as pending when
totalPaid is nonpositive, paid when the remaining balance is nonpositive,
and partial otherwise. -/
theorem updateReservationPaymentStatus_correct (payments : List Payment)
    (reservationId : Nat) (resv : Reservation)
    (hd : resv.dates.checkInDate < resv.dates.checkOutDate) :
    ∃ r1, updateReservationPaymentStatus payments reservationId resv = Except.ok r1 ∧
      r1.paymentSummary.totalPaid =
        ((ledgerPayments payments reservationId).map
          (fun p => p.amount - p.refund.refundedAmount)).sum ∧
      r1.paymentSummary.remainingBalance =
        resv.pricing.totalPrice - r1.paymentSummary.totalPaid ∧
      r1.paymentStatus =
        (if r1.paymentSummary.totalPaid ≤ 0 then PaymentStatus.pending
         else if r1.paymentSummary.remainingBalance ≤ 0 then PaymentStatus.paid
         else PaymentStatus.partly) := by
  unfold updateReservationPaymentStatus
  rw [save_ok_of_valid_dates ((resv.setTotalPaid
    ((ledgerPayments payments reservationId).foldl
      (fun s p => s + p.amount - p.refund.refundedAmount) 0)).updatePaymentSummary) hd]
  refine ⟨_, rfl, ?_, rfl, rfl⟩
  trans ((ledgerPayments payments reservationId).foldl
      (fun s p => s + p.amount - p.refund.refundedAmount) 0)
  · rfl
  · rw [foldl_netPaid]; exact zero_add _

/-- Witness for C3: a reservation with total price 500 and one paid payment
of 300 reconciles to remaining balance 200 with status partial, and after
a 100 refund on that payment it reconciles to totalPaid 200 and remaining
balance 300, still partial. -/
theorem updateReservationPaymentStatus_correct_witness :
    exResv500.dates.checkInDate < exResv500.dates.checkOutDate ∧
    (∃ r1, updateReservationPaymentStatus [exPay300] 50 exResv500 = Except.ok r1 ∧
      r1.paymentSummary.totalPaid = 300 ∧
      r1.paymentSummary.remainingBalance = 200 ∧
      r1.paymentStatus = PaymentStatus.partly) ∧
    (∃ r2, updateReservationPaymentStatus [exPay300r100] 50 exResv500 = Except.ok r2 ∧
      r2.paymentSummary.totalPaid = 200 ∧
      r2.paymentSummary.remainingBalance = 300 ∧
      r2.paymentStatus = PaymentStatus.partly) := by
  obtain ⟨r1, h1, h2, h3, h4⟩ :=
    updateReservationPaymentStatus_correct [exPay300] 50 exResv500 (by decide)
  obtain ⟨r2, g1, g2, g3, g4⟩ :=
    updateReservationPaymentStatus_correct [exPay300r100] 50 exResv500 (by decide)
  refine ⟨by decide, ⟨r1, h1, ?_, ?_, ?_⟩, ⟨r2, g1, ?_, ?_, ?_⟩⟩
  · rw [h2]; norm_num [ledgerPayments, exPay300]
  · rw [h3, h2]; norm_num [ledgerPayments, exPay300, exResv500]
  · rw [h4, h3, h2]; norm_num [ledgerPayments, exPay300, exResv500]
  · rw [g2]; norm_num [ledgerPayments, exPay300r100, exPay300]
  · rw [g3, g2]; norm_num [ledgerPayments, exPay300r100, exPay300, exResv500]
  · rw [g4, g3, g2]; norm_num [ledgerPayments, exPay300r100, exPay300, exResv500]

/-- C7: a refund is rejected when the payment is not currently paid, and
when the requested amount exceeds amount minus the already refunded
amount; on success the cumulative refunded amount grows by exactly the
requested amount, the actor, time and reason are stamped, the amount field
is untouched, and the refunded amount stays bounded by the amount. -/
theorem processRefund_preserves_bound (p : Payment) (amount : ℚ) (reason : String)
    (refundedBy : Nat) (now : Int) :
    (p.status ≠ PaymentStatus.paid →
      p.processRefund amount reason refundedBy now =
        Except.error "Cannot refund: payment is not in paid status") ∧
    (p.status = PaymentStatus.paid → amount > p.amount - p.refund.refundedAmount →
      p.processRefund amount reason refundedBy now =
        Except.error "Refund amount cannot exceed available balance") ∧
    (∀ p1, p.processRefund amount reason refundedBy now = Except.ok p1 →
      p1.refund.refundedAmount = p.refund.refundedAmount + amount ∧
      p1.refund.refundedBy = some refundedBy ∧
      p1.refund.refundedAt = some now ∧
      p1.refund.refundReason = some reason ∧
      p1.amount = p.amount ∧
      p1.refund.refundedAmount ≤ p1.amount) := by
  refine ⟨?_, ?_, ?_⟩
  · intro h
    simp [Payment.processRefund, h]
  · intro h1 h2
    simp [Payment.processRefund, h1, h2]
  · intro p1 hp1
    unfold Payment.processRefund at hp1
    split at hp1
    · cases hp1
    · split at hp1
      · cases hp1
      · rename_i hs hgt
        rw [Except.ok.injEq] at hp1
        subst hp1
        have hle : amount ≤ p.amount - p.refund.refundedAmount := not_lt.mp hgt
        split
        · exact ⟨rfl, rfl, rfl, rfl, rfl, by simp; linarith⟩
        · exact ⟨rfl, rfl, rfl, rfl, rfl, by simp; linarith⟩

/-- Witness for C7: refunding 100 of a paid payment of 300 succeeds, brings
the refunded amount to 100, and keeps it bounded by the amount; refunding
a pending payment is rejected. -/
theorem processRefund_preserves_bound_witness :
    (∃ p1, exPay300.processRefund 100 "guest request" 1 77 = Except.ok p1 ∧
      p1.refund.refundedAmount = 100 ∧
      p1.refund.refundedAmount ≤ p1.amount) ∧
    ({ exPay300 with status := PaymentStatus.pending } : Payment).processRefund
        100 "guest request" 1 77 =
      Except.error "Cannot refund: payment is not in paid status" := by
  have he : exPay300.processRefund 100 "guest request" 1 77 =
      Except.ok { exPay300 with refund := {
        isRefunded := true,
        refundedAmount := (0 : ℚ) + 100,
        refundedAt := some 77,
        refundReason := some "guest request",
        refundedBy := some 1 } } := by
    norm_num [Payment.processRefund, exPay300]
  obtain ⟨h1, h2, h3, h4, h5, h6⟩ :=
    (processRefund_preserves_bound exPay300 100 "guest request" 1 77).2.2 _ he
  refine ⟨⟨_, he, ?_, h6⟩, ?_⟩
  · rw [h1]; norm_num [exPay300]
  · exact (processRefund_preserves_bound { exPay300 with status := PaymentStatus.pending }
      100 "guest request" 1 77).1 (by decide)

/-- C10: a refund that brings the cumulative refunded amount up to the
full payment amount sets the payment status back to pending, and since the
post-save reconciliation runs only for a payment saved with status paid,
such a full refund leaves the reservation untouched; a partial refund
keeps the payment paid and the save does run the ledger reconciliation. -/
theorem refund_reconciliation_trigger (p : Payment) (others : List Payment)
    (resv : Reservation) (amount : ℚ) (reason : String) (refundedBy : Nat)
    (now : Int) (hpaid : p.status = PaymentStatus.paid) :
    (amount = p.amount - p.refund.refundedAmount →
      ∃ p1, processRefundAndSave p others resv amount reason refundedBy now =
          Except.ok (p1, resv) ∧
        p1.status = PaymentStatus.pending ∧
        p1.refund.refundedAmount = p1.amount) ∧
    (amount < p.amount - p.refund.refundedAmount →
      ∃ p1, p.processRefund amount reason refundedBy now = Except.ok p1 ∧
        p1.status = PaymentStatus.paid ∧
        processRefundAndSave p others resv amount reason refundedBy now =
          (updateReservationPaymentStatus (p1 :: others) p.reservationId resv).map
            (fun r => (p1, r))) := by
  constructor
  · intro hfull
    have hok : p.processRefund amount reason refundedBy now = Except.ok
        { p with
          status := PaymentStatus.pending,
          refund := {
            isRefunded := true,
            refundedAmount := p.refund.refundedAmount + amount,
            refundedAt := some now,
            refundReason := some reason,
            refundedBy := some refundedBy } } := by
      subst hfull
      simp [Payment.processRefund, hpaid, add_sub_cancel]
    refine ⟨{ p with
          status := PaymentStatus.pending,
          refund := {
            isRefunded := true,
            refundedAmount := p.refund.refundedAmount + amount,
            refundedAt := some now,
            refundReason := some reason,
            refundedBy := some refundedBy } }, ?_, rfl, ?_⟩
    · simp [processRefundAndSave, hok, savePaymentHook]
    · subst hfull
      simp [add_sub_cancel]
  · intro hpart
    have hngt : ¬ (amount > p.amount - p.refund.refundedAmount) :=
      not_lt.mpr (le_of_lt hpart)
    have hnotfull : ¬ (p.refund.refundedAmount + amount ≥ p.amount) := by
      intro hge
      have h2 : p.amount ≤ p.refund.refundedAmount + amount := hge
      linarith
    have hok : p.processRefund amount reason refundedBy now = Except.ok
        { p with
          refund := {
            isRefunded := true,
            refundedAmount := p.refund.refundedAmount + amount,
            refundedAt := some now,
            refundReason := some reason,
            refundedBy := some refundedBy } } := by
      simp [Payment.processRefund, hpaid, hngt, hnotfull]
    refine ⟨{ p with
          refund := {
            isRefunded := true,
            refundedAmount := p.refund.refundedAmount + amount,
            refundedAt := some now,
            refundReason := some reason,
            refundedBy := some refundedBy } }, hok, hpaid, ?_⟩
    simp only [processRefundAndSave, hok, savePaymentHook]
    rw [if_pos (hpaid : ({ p with
          refund := {
            isRefunded := true,
            refundedAmount := p.refund.refundedAmount + amount,
            refundedAt := some now,
            refundReason := some reason,
            refundedBy := some refundedBy } } : Payment).status = PaymentStatus.paid)]
    cases h2 : updateReservationPaymentStatus
        (({ p with
          refund := {
            isRefunded := true,
            refundedAmount := p.refund.refundedAmount + amount,
            refundedAt := some now,
            refundReason := some reason,
            refundedBy := some refundedBy } } : Payment) :: others)
        p.reservationId resv with
    | error e => rfl
    | ok r => rfl

/-- Witness for C10: a full refund of 300 on the paid payment of 300
leaves the reservation untouched and downgrades the payment to pending,
while a partial refund of 100 keeps the payment paid. -/
theorem refund_reconciliation_trigger_witness :
    exPay300.status = PaymentStatus.paid ∧
    (300 : ℚ) = exPay300.amount - exPay300.refund.refundedAmount ∧
    (∃ p1, processRefundAndSave exPay300 [] exResv500 300 "full" 1 88 =
        Except.ok (p1, exResv500) ∧ p1.status = PaymentStatus.pending) ∧
    (100 : ℚ) < exPay300.amount - exPay300.refund.refundedAmount ∧
    (∃ p1, exPay300.processRefund 100 "part" 1 88 = Except.ok p1 ∧
        p1.status = PaymentStatus.paid) := by
  have hf : (300 : ℚ) = exPay300.amount - exPay300.refund.refundedAmount := by
    norm_num [exPay300]
  have hp : (100 : ℚ) < exPay300.amount - exPay300.refund.refundedAmount := by
    norm_num [exPay300]
  have h := refund_reconciliation_trigger exPay300 [] exResv500 300 "full" 1 88 rfl
  have h2 := refund_reconciliation_trigger exPay300 [] exResv500 100 "part" 1 88 rfl
  obtain ⟨p1, ha, hb, hc⟩ := h.1 hf
  obtain ⟨q1, ga, gb, gc⟩ := h2.2 hp
  exact ⟨rfl, hf, ⟨p1, ha, hb⟩, hp, ⟨q1, ga, gb⟩⟩

/-- C9: the generic update copies every supplied field onto the
reservation except tenantId and confirmationNumber, which stay unchanged
even when supplied; in particular the status is overwritten with any
supplied enum value whatever the current status, with no transition check
and no accompanying room or guest effect. -/
theorem applyUpdateFields_correct (r : Reservation) (u : UpdatePayload) :
    (applyUpdateFields r u).status =
      (match u.status with
       | some s => s
       | none => r.status) ∧
    (applyUpdateFields r u).tenantId = r.tenantId ∧
    (applyUpdateFields r u).confirmationNumber = r.confirmationNumber ∧
    (applyUpdateFields r u).roomId =
      (match u.roomId with
       | some v => v
       | none => r.roomId) ∧
    (applyUpdateFields r u).guestId =
      (match u.guestId with
       | some v => v
       | none => r.guestId) ∧
    (applyUpdateFields r u).notes =
      (match u.notes with
       | some v => some v
       | none => r.notes) := by
  obtain ⟨ro, gu, da, ad, ch, st, no, te, cn⟩ := u
  rcases st <;> rcases no <;> rcases ro <;> rcases gu <;>
    rcases da with _ | ⟨ci, co⟩ <;> rcases ad <;> rcases ch <;>
    simp [applyUpdateFields]

/-- C6: the availability endpoint returns the empty list on every input,
because the capacity filter reads the totalCapacity schema virtual on
plain aggregation documents, where it is undefined; meanwhile a perfectly
bookable room — active, available, conflict-free, with capacity two for a
two-guest query — does come out of the room-level pipeline, so a nonempty
answer was expected. -/
theorem checkAvailability_always_empty :
    (∀ (rooms : List Room) (reservations : List Reservation)
        (tenantId propertyId : Nat) (checkInDate checkOutDate : Int)
        (adults children : Nat),
      checkAvailability rooms reservations tenantId propertyId
        checkInDate checkOutDate adults children = []) ∧
    findAvailableInProperty [exRoomA] [] 1 1 (10 * msPerDay) (12 * msPerDay) =
      [exRoomA] ∧
    exRoomA.capacity.adults + exRoomA.capacity.children = 2 := by
  refine ⟨?_, by decide, by decide⟩
  intro rooms reservations t pid ci co a c
  simp only [checkAvailability, jsGe, aggTotalCapacity]
  rw [filter_const_false]
  rfl

end MiHotel
